import Mathlib

/-!
Verification of the identity-and-lifecycle layer of Wt::Dbo (src/src/Wt/Dbo/ptr.h):
the `MetaDboBase` state machine, the reference-counted handle `ptr<C>`, its
write proxy `mutator`, and the transaction-boundary reactions.

The state bit constants and the derived predicates are transcribed from the
inline bodies in `src/src/Wt/Dbo/ptr.h` (class `MetaDboBase`).  Operations whose
bodies are not part of that header (only declared there) are modelled from the
specification; each such definition carries a doc comment starting with
`Modelled from the spec:`.
-/

namespace WtDbo

/-! State bit constants, from the enum `MetaDboBase::State`. -/

def New : Nat := 0x000

def Persisted : Nat := 0x001

def Orphaned : Nat := 0x002

def NeedsDelete : Nat := 0x010

def NeedsSave : Nat := 0x020

def Saving : Nat := 0x040

def DeletedInTransaction : Nat := 0x100

def SavedInTransaction : Nat := 0x200

def TransactionState : Nat := SavedInTransaction ||| DeletedInTransaction

/-- States expressible with the enum's bits: `Persisted`, `Orphaned`,
`NeedsDelete`, `NeedsSave`, `Saving`, `DeletedInTransaction`,
`SavedInTransaction`; their union is the mask 0x373. -/
def ValidState (s : Nat) : Prop := s &&& 0x373 = s

instance (s : Nat) : Decidable (ValidState s) := by
  unfold ValidState; infer_instance

/-! Derived predicates, transcribed from the inline bodies of
`MetaDboBase::isNew`, `isPersisted`, `isOrphaned`, `isDeleted`, `isDirty`,
`inTransaction`, `savedInTransaction`, `deletedInTransaction`,
`isTransient` in src/src/Wt/Dbo/ptr.h. -/

def isNew (state : Nat) : Bool := (state &&& Persisted) == 0

def isPersisted (state : Nat) : Bool :=
  (state &&& (Persisted ||| SavedInTransaction)) != 0

def isOrphaned (state : Nat) : Bool := (state &&& Orphaned) != 0

def isDeleted (state : Nat) : Bool :=
  (state &&& (NeedsDelete ||| DeletedInTransaction)) != 0

def isDirty (state : Nat) : Bool := (state &&& NeedsSave) != 0

def inTransaction (state : Nat) : Bool := (state &&& 0xF00) != 0

def savedInTransaction (state : Nat) : Bool :=
  (state &&& SavedInTransaction) != 0

def deletedInTransaction (state : Nat) : Bool :=
  (state &&& DeletedInTransaction) != 0

def isTransient (state : Nat) : Bool := isNew state || isDeleted state

/-! Reference counting.  The bodies of `MetaDboBase::incRef`,
`MetaDboBase::decRef`, `ptr<C>::takeObj` and `ptr<C>::freeObj` are not part of
src/src/Wt/Dbo/ptr.h (only their declarations are), so the reference-counting
system is modelled from the specification. -/

/-- Modelled from the spec: the observable state of the reference-counting
system.  `handles` lists the target MetaDbo cell of every currently live
`ptr` handle (`none` for a null handle); `rc` is the per-cell reference
counter maintained by `incRef`/`decRef` (whose bodies are missing from the
header); `alive` records whether the MetaDbo cell is currently allocated
(`decRef` destroys it when the counter reaches zero). -/
structure RcState where
  handles : List (Option Nat)
  rc : Nat → Nat
  alive : Nat → Bool

def rcUpd (f : Nat → Nat) (c v : Nat) : Nat → Nat :=
  fun x => if x = c then v else f x

def alUpd (f : Nat → Bool) (c : Nat) (v : Bool) : Nat → Bool :=
  fun x => if x = c then v else f x

/-- Modelled from the spec: `ptr<C>::takeObj`, whose body is missing from the
header.  If the handle's target is non-null, increment the target's reference
count (`MetaDboBase::incRef`); a null handle is a no-op. -/
def takeObj (st : RcState) (t : Option Nat) : RcState :=
  match t with
  | none => st
  | some c => { st with rc := rcUpd st.rc c (st.rc c + 1) }

/-- Modelled from the spec: `ptr<C>::freeObj`, whose body is missing from the
header.  If the handle's target is non-null, decrement the target's reference
count (`MetaDboBase::decRef`); when the count reaches zero the MetaDbo cell is
destroyed.  A null handle is a no-op. -/
def freeObj (st : RcState) (t : Option Nat) : RcState :=
  match t with
  | none => st
  | some c =>
    if st.rc c = 1 then
      { st with rc := rcUpd st.rc c 0, alive := alUpd st.alive c false }
    else
      { st with rc := rcUpd st.rc c (st.rc c - 1) }

/-- Modelled from the spec: construction of a `ptr` from a fresh in-memory
instance allocates a fresh MetaDbo cell and registers the one new handle on
it (reference count 1). -/
def constructStep (st : RcState) (c : Nat) : RcState :=
  if st.alive c then st
  else { handles := st.handles ++ [some c],
         rc := rcUpd st.rc c 1,
         alive := alUpd st.alive c true }

/-- Modelled from the spec: default/null construction of a `ptr` registers a
handle pointing at nothing and touches no reference count. -/
def constructNullStep (st : RcState) : RcState :=
  { st with handles := st.handles ++ [none] }

/-- Modelled from the spec: copy construction of a `ptr` from a live handle
with target `t` registers one more handle with the same target and performs
`takeObj` (incrementing the target's count when non-null). -/
def copyStep (st : RcState) (t : Option Nat) : RcState :=
  if t ∈ st.handles then takeObj { st with handles := st.handles ++ [t] } t
  else st

/-- Modelled from the spec: destruction of a live handle with target `t`
unregisters it and performs `freeObj` (decrementing the target's count when
non-null, destroying the cell at zero). -/
def destructStep (st : RcState) (t : Option Nat) : RcState :=
  if t ∈ st.handles then freeObj { st with handles := st.handles.erase t } t
  else st

/-- Handle lifecycle events of `ptr<C>`: construction from a new object,
null construction, copy construction, retargeting assignment, reset, and
destruction.  `copy`, `assign`, `reset` and `destruct` name the targets of
the handles involved (`none` for a null handle). -/
inductive RcOp where
  | construct (cell : Nat)
  | constructNull
  | copy (t : Option Nat)
  | assign (oldT newT : Option Nat)
  | reset (t : Option Nat)
  | destruct (t : Option Nat)

/-- Modelled from the spec: the effect of one handle lifecycle event.
A retargeting assignment increments the new target's count and decrements the
old target's; a reset decrements the old target's count and leaves the handle
null.  Events that name no live handle are no-ops. -/
def rcStep (st : RcState) (op : RcOp) : RcState :=
  match op with
  | RcOp.construct c => constructStep st c
  | RcOp.constructNull => constructNullStep st
  | RcOp.copy t => copyStep st t
  | RcOp.assign o n =>
    if o ∈ st.handles ∧ n ∈ st.handles then destructStep (copyStep st n) o
    else st
  | RcOp.reset t =>
    if t ∈ st.handles then constructNullStep (destructStep st t)
    else st
  | RcOp.destruct t => destructStep st t

def rcInit : RcState := { handles := [], rc := fun _ => 0, alive := fun _ => false }

def rcRun (ops : List RcOp) : RcState := ops.foldl rcStep rcInit

/-- The reference-count invariant: every cell's reference counter equals the
number of currently live handles targeting it, and a cell is allocated
exactly while that number is nonzero. -/
def RcInv (st : RcState) : Prop :=
  ∀ c : Nat, st.rc c = st.handles.count (some c) ∧
    (st.alive c = true ↔ st.handles.count (some c) ≠ 0)

/-! Handles and comparison (claim C3). -/

/-- A `ptr` handle: the identity (`cell`) of the MetaDbo it references
(`none` for a null handle), together with a tag for its declared element
type (base vs. derived class, mutable `C` vs. `const C`).  The declared type
plays no role in comparison. -/
structure Handle where
  cell : Option Nat
  declType : Nat

/-- Modelled from the spec: `ptr<C>::operator==`, whose body is not part of
src/src/Wt/Dbo/ptr.h (only the declarations, for `ptr<MutC>` and
`ptr<const C>`, are).  Two handles are equal iff they reference the same
underlying MetaDbo cell; the declared element type is normalized away. -/
def ptrEq (a b : Handle) : Bool := a.cell == b.cell

/-! The per-object metadata value used by the lifecycle operations
(claims C4 to C9).  `payload` abstracts the in-memory copy of the mapped
object (`none` = not loaded); `session` abstracts the owning context. -/

structure FMeta where
  state : Nat
  version : Int
  id : Int
  payload : Option Nat
  session : Option Nat

/-- Error conditions of the lifecycle layer (spec section 7). -/
inductive DboError where
  | objectNotFound
  | staleObject
  | invalidAccess
  deriving DecidableEq

/-- The write operations a flush can issue against the owning context. -/
inductive WriteOp where
  | insertOp
  | updateOp
  | deleteOp
  deriving DecidableEq

/-- Sentinel id for a null reference, from the inline body of
`dbo_default_traits::invalidId` in src/src/Wt/Dbo/ptr.h (returns -1). -/
def invalidId : Int := -1

/-- The state-level outcome of a flush: the new state bits, the write
operations issued, the error (if any), and whether an insert collected a
generated identity. -/
structure FlushCore where
  st : Nat
  writes : List WriteOp
  err : Option DboError
  inserted : Bool
  deriving DecidableEq

/-- Modelled from the spec: the state-level part of `MetaDbo<C>::flush`,
whose body is not part of src/src/Wt/Dbo/ptr.h (only the declaration is).
If `Saving` is set, a no-op.  Otherwise a pending delete issues one delete
(checking the optimistic-concurrency version, `vm` = version matches),
a dirty new object issues one insert, a dirty persisted object issues one
update (again checking the version); transaction-scope bits record the
provisional outcome; a version mismatch fails with `staleObject` and leaves
the state unchanged. -/
def flushCore (s : Nat) (vm : Bool) : FlushCore :=
  if s &&& Saving ≠ 0 then ⟨s, [], none, false⟩
  else if s &&& NeedsDelete ≠ 0 then
    if vm then
      ⟨(s &&& (0x3FF ^^^ (NeedsDelete ||| NeedsSave))) ||| DeletedInTransaction,
       [WriteOp.deleteOp], none, false⟩
    else ⟨s, [], some DboError.staleObject, false⟩
  else if s &&& NeedsSave ≠ 0 then
    if s &&& (Persisted ||| SavedInTransaction) = 0 then
      ⟨(s &&& (0x3FF ^^^ NeedsSave)) ||| SavedInTransaction,
       [WriteOp.insertOp], none, true⟩
    else if vm then
      ⟨(s &&& (0x3FF ^^^ NeedsSave)) ||| SavedInTransaction,
       [WriteOp.updateOp], none, false⟩
    else ⟨s, [], some DboError.staleObject, false⟩
  else ⟨s, [], none, false⟩

/-- The outcome of a flush: the metadata afterwards, the writes issued, and
the error (if any). -/
structure FlushResult where
  meta : FMeta
  writes : List WriteOp
  err : Option DboError

/-- Modelled from the spec: `MetaDbo<C>::flush` on the full metadata value.
`storedVersion` is the version currently in storage, `newId` the generated
identity collected after an insert. -/
def flush (m : FMeta) (storedVersion : Int) (newId : Int) : FlushResult :=
  { meta := { m with
      state := (flushCore m.state (m.version == storedVersion)).st,
      id := if (flushCore m.state (m.version == storedVersion)).inserted
            then newId else m.id },
    writes := (flushCore m.state (m.version == storedVersion)).writes,
    err := (flushCore m.state (m.version == storedVersion)).err }

/-- Modelled from the spec: `MetaDboBase::setDirty` (`markDirty`), whose body
is not part of src/src/Wt/Dbo/ptr.h.  Sets the `NeedsSave` bit. -/
def setDirty (m : FMeta) : FMeta := { m with state := m.state ||| NeedsSave }

/-- Modelled from the spec: the release (destructor) of `ptr<C>::mutator`,
whose body is not part of src/src/Wt/Dbo/ptr.h.  It unconditionally calls
`setDirty` on the referenced metadata; the second component counts the
`setDirty` calls made. -/
def mutatorRelease (mc : FMeta × Nat) : FMeta × Nat := (setDirty mc.1, mc.2 + 1)

/-- Modelled from the spec: one acquisition and release of the write proxy
returned by `ptr<C>::modify()`: the mutation `f` (possibly the identity) is
applied to the payload, and releasing the mutator marks the metadata dirty.
The counter starts at zero `setDirty` calls. -/
def modifyScope (m : FMeta) (f : Nat → Nat) : FMeta × Nat :=
  mutatorRelease ({ m with payload := Option.map f m.payload }, 0)

/-- Modelled from the spec: the state-level part of
`MetaDbo<C>::doTransactionDone`, whose body is not part of
src/src/Wt/Dbo/ptr.h.  On success, `DeletedInTransaction` is finalized into
the deleted/orphaned state and `SavedInTransaction` is promoted into
`Persisted`; on rollback, the transaction-scope bit is discarded and the
speculative change it recorded is reverted (`NeedsDelete` respectively
`NeedsSave` is restored). -/
def txDoneCore (s : Nat) (success : Bool) : Nat :=
  if success then
    if s &&& DeletedInTransaction ≠ 0 then Orphaned
    else if s &&& SavedInTransaction ≠ 0 then Persisted
    else s
  else
    if s &&& DeletedInTransaction ≠ 0 then
      (s &&& (0x3FF ^^^ DeletedInTransaction)) ||| NeedsDelete
    else if s &&& SavedInTransaction ≠ 0 then
      (s &&& (0x3FF ^^^ SavedInTransaction)) ||| NeedsSave
    else s

/-- Modelled from the spec: `MetaDbo<C>::doTransactionDone` on the full
metadata value: resolves the transaction-scope bits, increments the version
on a committed save, and severs the session on a committed delete. -/
def doTransactionDone (m : FMeta) (success : Bool) : FMeta :=
  { state := txDoneCore m.state success,
    version :=
      if success && savedInTransaction m.state && !(deletedInTransaction m.state)
      then m.version + 1 else m.version,
    id := m.id,
    payload := m.payload,
    session :=
      if success && deletedInTransaction m.state then none else m.session }

/-- Modelled from the spec: `MetaDbo<C>::purge`, whose body is not part of
src/src/Wt/Dbo/ptr.h.  Discards the payload only when the object is not
dirty; purging a dirty object fails with `invalidAccess`. -/
def purge (m : FMeta) : Except DboError FMeta :=
  if m.state &&& NeedsSave ≠ 0 then Except.error DboError.invalidAccess
  else Except.ok { m with payload := none }

/-- Modelled from the spec: `MetaDbo<C>::obj` / `doLoad`: read access returns
the payload, lazily loading it (from the row `dbRow` in storage) when absent
and the object is persisted.  The boolean in the result records whether a
load was triggered by this access. -/
def objAccess (m : FMeta) (dbRow : Option Nat) : Except DboError (FMeta × Nat × Bool) :=
  match m.payload with
  | some p => Except.ok (m, p, false)
  | none =>
    if m.state &&& (Persisted ||| SavedInTransaction) ≠ 0 then
      match dbRow with
      | some r => Except.ok ({ m with payload := some r }, r, true)
      | none => Except.error DboError.objectNotFound
    else Except.error DboError.invalidAccess

/-- Modelled from the spec: `MetaDboBase::remove`, whose body is not part of
src/src/Wt/Dbo/ptr.h.  A transient (never persisted) object has its identity
association destroyed immediately, purely in memory; a persisted object gets
the `NeedsDelete` bit (or `DeletedInTransaction` when inside an active
transaction) and keeps its payload. -/
def remove (m : FMeta) (activeTx : Bool) : FMeta :=
  if m.state &&& (Persisted ||| SavedInTransaction) = 0 then
    { m with id := invalidId, session := none, state := New }
  else
    { m with state :=
        m.state ||| (if activeTx then DeletedInTransaction else NeedsDelete) }

/-- Modelled from the spec: `MetaDbo<C>::reread`, whose body is not part of
src/src/Wt/Dbo/ptr.h.  Discards the payload (and any pending changes) so the
next access reloads from storage; a no-op on a transient object. -/
def reread (m : FMeta) : FMeta :=
  if m.state &&& (Persisted ||| SavedInTransaction) = 0 then m
  else { m with payload := none, state := m.state &&& (0x3FF ^^^ NeedsSave) }

/-! The handle-level delegating accessors (claim C9).  Their bodies are not
part of src/src/Wt/Dbo/ptr.h (only the declarations in `ptr<C>` are), so they
are modelled from the spec: each delegates to the referenced metadata and
reports a defined neutral value on a null handle. -/

/-- A handle for the delegation model: the referenced metadata value, or
`none` for a null handle. -/
structure Ptr where
  obj : Option FMeta

/-- Modelled from the spec: `ptr<C>::id`; `dbo_traits<C>::invalidId()` on a
null handle. -/
def ptrId (p : Ptr) : Int :=
  match p.obj with
  | none => invalidId
  | some m => m.id

/-- Modelled from the spec: `ptr<C>::version`; -1 on a null handle. -/
def ptrVersion (p : Ptr) : Int :=
  match p.obj with
  | none => -1
  | some m => m.version

/-- Modelled from the spec: `ptr<C>::isDirty`; false on a null handle. -/
def ptrIsDirty (p : Ptr) : Bool :=
  match p.obj with
  | none => false
  | some m => isDirty m.state

/-- Modelled from the spec: `ptr<C>::isTransient`; true on a null handle. -/
def ptrIsTransient (p : Ptr) : Bool :=
  match p.obj with
  | none => true
  | some m => isTransient m.state

/-- Modelled from the spec: `ptr<C>::session`; null on a null handle. -/
def ptrSession (p : Ptr) : Option Nat :=
  match p.obj with
  | none => none
  | some m => m.session

/-- Modelled from the spec: `ptr<C>::flush`; a no-op on a null handle. -/
def ptrFlush (p : Ptr) (storedVersion newId : Int) : Ptr :=
  match p.obj with
  | none => p
  | some m => { obj := some (flush m storedVersion newId).meta }

/-- Modelled from the spec: `ptr<C>::remove`; a no-op on a null handle. -/
def ptrRemove (p : Ptr) (activeTx : Bool) : Ptr :=
  match p.obj with
  | none => p
  | some m => { obj := some (remove m activeTx) }

/-- Modelled from the spec: `ptr<C>::reread`; a no-op on a null handle. -/
def ptrReread (p : Ptr) : Ptr :=
  match p.obj with
  | none => p
  | some m => { obj := some (reread m) }

/-- Modelled from the spec: `ptr<C>::purge`; a no-op on a null handle. -/
def ptrPurge (p : Ptr) : Ptr :=
  match p.obj with
  | none => p
  | some m =>
    match purge m with
    | Except.ok m2 => { obj := some m2 }
    | Except.error _ => { obj := some m }

set_option maxRecDepth 8192

set_option synthInstance.maxSize 1024

theorem valid_lt (s : Nat) (h : ValidState s) : s < 1024 := by
  have hle : s &&& 0x373 ≤ 0x373 := Nat.and_le_right
  unfold ValidState at h
  omega

/-- C1: the derived state predicates of `MetaDboBase` are exactly as the spec
describes them, for every state value expressible with the enum's bits:
`isNew` iff the `Persisted` bit is clear; `isPersisted` iff `Persisted` or
`SavedInTransaction` is set; `isDeleted` iff `NeedsDelete` or
`DeletedInTransaction` is set; `isTransient` iff `isNew` or `isDeleted`;
`isDirty` iff `NeedsSave` is set; and `inTransaction` iff some
transaction-scope bit (`SavedInTransaction` or `DeletedInTransaction`)
is set. -/
theorem state_predicates_exact (s : Nat) (hv : ValidState s) :
    (isNew s = true ↔ s &&& Persisted = 0) ∧
    (isPersisted s = true ↔ (s &&& Persisted ≠ 0 ∨ s &&& SavedInTransaction ≠ 0)) ∧
    (isDeleted s = true ↔ (s &&& NeedsDelete ≠ 0 ∨ s &&& DeletedInTransaction ≠ 0)) ∧
    (isTransient s = (isNew s || isDeleted s)) ∧
    (isDirty s = true ↔ s &&& NeedsSave ≠ 0) ∧
    (inTransaction s = true ↔ (s &&& SavedInTransaction ≠ 0 ∨ s &&& DeletedInTransaction ≠ 0)) := by
  have hlt : s < 1024 := valid_lt s hv
  have H : ∀ t : Nat, t < 1024 → ValidState t →
      (isNew t = true ↔ t &&& Persisted = 0) ∧
      (isPersisted t = true ↔ (t &&& Persisted ≠ 0 ∨ t &&& SavedInTransaction ≠ 0)) ∧
      (isDeleted t = true ↔ (t &&& NeedsDelete ≠ 0 ∨ t &&& DeletedInTransaction ≠ 0)) ∧
      (isTransient t = (isNew t || isDeleted t)) ∧
      (isDirty t = true ↔ t &&& NeedsSave ≠ 0) ∧
      (inTransaction t = true ↔ (t &&& SavedInTransaction ≠ 0 ∨ t &&& DeletedInTransaction ≠ 0)) := by
    decide
  exact H s hlt hv

/-- Witness for C1, at the state `Persisted ||| NeedsSave ||| SavedInTransaction`. -/
theorem state_predicates_exact_witness :
    ValidState 0x221 ∧
    ((isNew 0x221 = true ↔ 0x221 &&& Persisted = 0) ∧
     (isPersisted 0x221 = true ↔ (0x221 &&& Persisted ≠ 0 ∨ 0x221 &&& SavedInTransaction ≠ 0)) ∧
     (isDeleted 0x221 = true ↔ (0x221 &&& NeedsDelete ≠ 0 ∨ 0x221 &&& DeletedInTransaction ≠ 0)) ∧
     (isTransient 0x221 = (isNew 0x221 || isDeleted 0x221)) ∧
     (isDirty 0x221 = true ↔ 0x221 &&& NeedsSave ≠ 0) ∧
     (inTransaction 0x221 = true ↔ (0x221 &&& SavedInTransaction ≠ 0 ∨ 0x221 &&& DeletedInTransaction ≠ 0))) :=
  ⟨by decide, state_predicates_exact 0x221 (by decide)⟩

/-- C10: `isNew()` is not the negation of `isPersisted()`: whenever the
`SavedInTransaction` bit is set while `Persisted` is clear (an object first
saved inside the still-open transaction), `isNew()` and `isPersisted()` both
return `true` simultaneously. -/
theorem isNew_and_isPersisted_both_true (s : Nat) (hv : ValidState s)
    (hst : s &&& SavedInTransaction ≠ 0) (hp : s &&& Persisted = 0) :
    isNew s = true ∧ isPersisted s = true := by
  have hlt : s < 1024 := valid_lt s hv
  have H : ∀ t : Nat, t < 1024 → ValidState t →
      t &&& SavedInTransaction ≠ 0 → t &&& Persisted = 0 →
      isNew t = true ∧ isPersisted t = true := by
    decide
  exact H s hlt hv hst hp

/-- Witness for C10, at the state `SavedInTransaction ||| NeedsSave`. -/
theorem isNew_and_isPersisted_both_true_witness :
    ValidState 0x220 ∧ 0x220 &&& SavedInTransaction ≠ 0 ∧ 0x220 &&& Persisted = 0 ∧
    (isNew 0x220 = true ∧ isPersisted 0x220 = true) :=
  ⟨by decide, by decide, by decide,
   isNew_and_isPersisted_both_true 0x220 (by decide) (by decide) (by decide)⟩

theorem count_append_one (l : List (Option Nat)) (t x : Option Nat) :
    (l ++ [t]).count x = l.count x + (if t = x then 1 else 0) := by
  simp [List.count_append, List.count_singleton, beq_iff_eq]

theorem count_erase_one (l : List (Option Nat)) (t x : Option Nat) :
    (l.erase t).count x = l.count x - (if t = x then 1 else 0) := by
  rw [List.count_erase]
  simp [beq_iff_eq]

theorem count_app_eq (l : List (Option Nat)) (x : Option Nat) :
    (l ++ [x]).count x = l.count x + 1 := by
  rw [count_append_one, if_pos rfl]

theorem count_app_ne (l : List (Option Nat)) (t x : Option Nat) (h : t ≠ x) :
    (l ++ [t]).count x = l.count x := by
  rw [count_append_one, if_neg h]
  omega

theorem count_er_eq (l : List (Option Nat)) (x : Option Nat) :
    (l.erase x).count x = l.count x - 1 := by
  rw [count_erase_one, if_pos rfl]

theorem count_er_ne (l : List (Option Nat)) (t x : Option Nat) (h : t ≠ x) :
    (l.erase t).count x = l.count x := by
  rw [count_erase_one, if_neg h]
  omega

theorem mem_count_pos (l : List (Option Nat)) (t : Option Nat) (h : t ∈ l) :
    0 < l.count t := List.count_pos_iff.mpr h

theorem iff_of_true_eq {p : Prop} (hp : p) : (true = true ↔ p) :=
  ⟨fun _ => hp, fun _ => rfl⟩

theorem iff_of_false_eq {p : Prop} (hp : ¬p) : (false = true ↔ p) :=
  ⟨fun h => absurd h (by decide), fun h => absurd h hp⟩

theorem constructStep_inv (st : RcState) (c : Nat) (h : RcInv st) :
    RcInv (constructStep st c) := by
  by_cases hc : st.alive c = true
  · unfold constructStep
    rw [if_pos hc]
    exact h
  · have hcnt : st.handles.count (some c) = 0 := by
      rcases h c with ⟨h1, h2⟩
      by_contra hne
      exact hc (h2.mpr hne)
    unfold constructStep
    rw [if_neg hc]
    intro x
    by_cases hx : x = c
    · refine ⟨?_, ?_⟩
      · show rcUpd st.rc c 1 x = (st.handles ++ [some c]).count (some x)
        rw [hx, count_app_eq, hcnt]
        unfold rcUpd
        rw [if_pos rfl]
      · show alUpd st.alive c true x = true ↔ (st.handles ++ [some c]).count (some x) ≠ 0
        rw [hx, count_app_eq, hcnt]
        unfold alUpd
        rw [if_pos rfl]
        exact iff_of_true_eq (by omega)
    · rcases h x with ⟨h1, h2⟩
      have hne : (some c : Option Nat) ≠ some x := fun he => hx (Option.some.inj he).symm
      refine ⟨?_, ?_⟩
      · show rcUpd st.rc c 1 x = (st.handles ++ [some c]).count (some x)
        rw [count_app_ne _ _ _ hne]
        unfold rcUpd
        rw [if_neg hx]
        exact h1
      · show alUpd st.alive c true x = true ↔ (st.handles ++ [some c]).count (some x) ≠ 0
        rw [count_app_ne _ _ _ hne]
        unfold alUpd
        rw [if_neg hx]
        exact h2

theorem constructNullStep_inv (st : RcState) (h : RcInv st) :
    RcInv (constructNullStep st) := by
  unfold constructNullStep
  intro x
  rcases h x with ⟨h1, h2⟩
  have hne : (none : Option Nat) ≠ some x := fun he => Option.noConfusion he
  refine ⟨?_, ?_⟩
  · show st.rc x = (st.handles ++ [none]).count (some x)
    rw [count_app_ne _ _ _ hne]
    exact h1
  · show st.alive x = true ↔ (st.handles ++ [none]).count (some x) ≠ 0
    rw [count_app_ne _ _ _ hne]
    exact h2

theorem copyStep_inv (st : RcState) (t : Option Nat) (h : RcInv st) :
    RcInv (copyStep st t) := by
  by_cases hm : t ∈ st.handles
  · unfold copyStep
    rw [if_pos hm]
    cases t with
    | none => exact constructNullStep_inv st h
    | some d =>
      intro x
      by_cases hx : x = d
      · rcases h d with ⟨h1, h2⟩
        have hpos : 0 < st.handles.count (some d) := mem_count_pos _ _ hm
        refine ⟨?_, ?_⟩
        · show rcUpd st.rc d (st.rc d + 1) x = (st.handles ++ [some d]).count (some x)
          rw [hx, count_app_eq]
          unfold rcUpd
          rw [if_pos rfl, h1]
        · show st.alive x = true ↔ (st.handles ++ [some d]).count (some x) ≠ 0
          rw [hx, count_app_eq]
          have halive : st.alive d = true := h2.mpr (by omega)
          rw [halive]
          exact iff_of_true_eq (by omega)
      · rcases h x with ⟨h1, h2⟩
        have hne : (some d : Option Nat) ≠ some x := fun he => hx (Option.some.inj he).symm
        refine ⟨?_, ?_⟩
        · show rcUpd st.rc d (st.rc d + 1) x = (st.handles ++ [some d]).count (some x)
          rw [count_app_ne _ _ _ hne]
          unfold rcUpd
          rw [if_neg hx]
          exact h1
        · show st.alive x = true ↔ (st.handles ++ [some d]).count (some x) ≠ 0
          rw [count_app_ne _ _ _ hne]
          exact h2
  · unfold copyStep
    rw [if_neg hm]
    exact h

theorem destructStep_inv (st : RcState) (t : Option Nat) (h : RcInv st) :
    RcInv (destructStep st t) := by
  by_cases hm : t ∈ st.handles
  · unfold destructStep
    rw [if_pos hm]
    cases t with
    | none =>
      intro x
      rcases h x with ⟨h1, h2⟩
      have hne : (none : Option Nat) ≠ some x := fun he => Option.noConfusion he
      refine ⟨?_, ?_⟩
      · show st.rc x = (st.handles.erase none).count (some x)
        rw [count_er_ne _ _ _ hne]
        exact h1
      · show st.alive x = true ↔ (st.handles.erase none).count (some x) ≠ 0
        rw [count_er_ne _ _ _ hne]
        exact h2
    | some d =>
      have hpos : 0 < st.handles.count (some d) := mem_count_pos _ _ hm
      rcases h d with ⟨hd1, hd2⟩
      by_cases hone : st.rc d = 1
      · have hk : st.handles.count (some d) = 1 := by omega
        rw [show freeObj { st with handles := st.handles.erase (some d) } (some d) =
              { handles := st.handles.erase (some d),
                rc := rcUpd st.rc d 0,
                alive := alUpd st.alive d false } from by
          simp only [freeObj]
          rw [if_pos hone]]
        intro x
        by_cases hx : x = d
        · refine ⟨?_, ?_⟩
          · show rcUpd st.rc d 0 x = (st.handles.erase (some d)).count (some x)
            rw [hx, count_er_eq, hk]
            unfold rcUpd
            rw [if_pos rfl]
          · show alUpd st.alive d false x = true ↔
              (st.handles.erase (some d)).count (some x) ≠ 0
            rw [hx, count_er_eq, hk]
            unfold alUpd
            rw [if_pos rfl]
            exact iff_of_false_eq (by omega)
        · rcases h x with ⟨h1, h2⟩
          have hne : (some d : Option Nat) ≠ some x := fun he => hx (Option.some.inj he).symm
          refine ⟨?_, ?_⟩
          · show rcUpd st.rc d 0 x = (st.handles.erase (some d)).count (some x)
            rw [count_er_ne _ _ _ hne]
            unfold rcUpd
            rw [if_neg hx]
            exact h1
          · show alUpd st.alive d false x = true ↔
              (st.handles.erase (some d)).count (some x) ≠ 0
            rw [count_er_ne _ _ _ hne]
            unfold alUpd
            rw [if_neg hx]
            exact h2
      · have halive : st.alive d = true := hd2.mpr (by omega)
        rw [show freeObj { st with handles := st.handles.erase (some d) } (some d) =
              { handles := st.handles.erase (some d),
                rc := rcUpd st.rc d (st.rc d - 1),
                alive := st.alive } from by
          simp only [freeObj]
          rw [if_neg hone]]
        intro x
        by_cases hx : x = d
        · refine ⟨?_, ?_⟩
          · show rcUpd st.rc d (st.rc d - 1) x = (st.handles.erase (some d)).count (some x)
            rw [hx, count_er_eq]
            unfold rcUpd
            rw [if_pos rfl, hd1]
          · show st.alive x = true ↔ (st.handles.erase (some d)).count (some x) ≠ 0
            rw [hx, count_er_eq, halive]
            exact iff_of_true_eq (by omega)
        · rcases h x with ⟨h1, h2⟩
          have hne : (some d : Option Nat) ≠ some x := fun he => hx (Option.some.inj he).symm
          refine ⟨?_, ?_⟩
          · show rcUpd st.rc d (st.rc d - 1) x = (st.handles.erase (some d)).count (some x)
            rw [count_er_ne _ _ _ hne]
            unfold rcUpd
            rw [if_neg hx]
            exact h1
          · show st.alive x = true ↔ (st.handles.erase (some d)).count (some x) ≠ 0
            rw [count_er_ne _ _ _ hne]
            exact h2
  · unfold destructStep
    rw [if_neg hm]
    exact h

theorem rcStep_inv (st : RcState) (op : RcOp) (h : RcInv st) :
    RcInv (rcStep st op) := by
  cases op with
  | construct c => exact constructStep_inv st c h
  | constructNull => exact constructNullStep_inv st h
  | copy t => exact copyStep_inv st t h
  | assign o n =>
    by_cases hg : o ∈ st.handles ∧ n ∈ st.handles
    · simpa [rcStep, hg] using
        destructStep_inv _ o (copyStep_inv st n h)
    · simpa [rcStep, hg] using h
  | reset t =>
    by_cases hg : t ∈ st.handles
    · simpa [rcStep, hg] using
        constructNullStep_inv _ (destructStep_inv st t h)
    · simpa [rcStep, hg] using h
  | destruct t => exact destructStep_inv st t h

theorem rcInit_inv : RcInv rcInit := by
  intro c
  simp [rcInit]

theorem rcRun_inv_aux (ops : List RcOp) :
    ∀ st : RcState, RcInv st → RcInv (ops.foldl rcStep st) := by
  induction ops with
  | nil => intro st h; exact h
  | cons op rest ih => intro st h; exact ih _ (rcStep_inv st op h)

/-- C2: for every sequence of `ptr<C>` constructions, copies, assignments,
resets and destructions, each MetaDbo cell's reference count equals the number
of currently live handles referencing it, and the cell is allocated (alive)
exactly while that count is nonzero: it is destroyed exactly when the count
reaches zero. -/
theorem refcount_invariant (ops : List RcOp) : RcInv (rcRun ops) :=
  rcRun_inv_aux ops rcInit rcInit_inv

/-- C3: equality of handles is identity of the shared MetaDbo cell: for any
two handles resolving to MetaDbo cells `ma` and `mb`, `operator==` returns
true iff `ma = mb` (so handles resolving to different rows never compare
equal), and the comparison is independent of the handles' declared element
type (base vs. derived, mutable vs. const). -/
theorem ptrEq_iff_same_metadbo (a b : Handle) (ma mb : Nat)
    (ha : a.cell = some ma) (hb : b.cell = some mb) :
    (ptrEq a b = true ↔ ma = mb) ∧
    (∀ d1 d2 : Nat,
      ptrEq { cell := a.cell, declType := d1 } { cell := b.cell, declType := d2 } =
        ptrEq a b) := by
  constructor
  · unfold ptrEq
    rw [ha, hb]
    simp
  · intro d1 d2
    rfl

/-- Witness for C3: two handles of different declared type on cell 3. -/
theorem ptrEq_iff_same_metadbo_witness :
    (Handle.mk (some 3) 0).cell = some 3 ∧ (Handle.mk (some 3) 1).cell = some 3 ∧
    ((ptrEq (Handle.mk (some 3) 0) (Handle.mk (some 3) 1) = true ↔ (3 : Nat) = 3) ∧
     (∀ d1 d2 : Nat,
       ptrEq { cell := (Handle.mk (some 3) 0).cell, declType := d1 }
             { cell := (Handle.mk (some 3) 1).cell, declType := d2 } =
         ptrEq (Handle.mk (some 3) 0) (Handle.mk (some 3) 1))) :=
  ⟨rfl, rfl, ptrEq_iff_same_metadbo (Handle.mk (some 3) 0) (Handle.mk (some 3) 1) 3 3 rfl rfl⟩

/-- C5: releasing the write proxy returned by `ptr<C>::modify()` calls
`setDirty` exactly once, unconditionally, whatever the mutation `f` did (the
identity included); a handle freshly loaded from an existing row (state
`Persisted`) is not dirty before, and dirty after exactly one write-access
acquisition and release. -/
theorem mutator_marks_dirty (m : FMeta) (f : Nat → Nat)
    (hld : m.state = Persisted) :
    isDirty m.state = false ∧
    isDirty (modifyScope m f).1.state = true ∧
    (modifyScope m f).2 = 1 ∧
    (modifyScope m f).1.state = (m.state ||| NeedsSave) := by
  refine ⟨?_, ?_, rfl, rfl⟩
  · rw [hld]
    rfl
  · show isDirty (m.state ||| NeedsSave) = true
    rw [hld]
    rfl

/-- Witness for C5: a loaded, clean, persisted object and the identity
mutation. -/
theorem mutator_marks_dirty_witness :
    (FMeta.mk Persisted 0 1 (some 5) (some 0)).state = Persisted ∧
    (isDirty (FMeta.mk Persisted 0 1 (some 5) (some 0)).state = false ∧
     isDirty (modifyScope (FMeta.mk Persisted 0 1 (some 5) (some 0)) (fun v => v)).1.state = true ∧
     (modifyScope (FMeta.mk Persisted 0 1 (some 5) (some 0)) (fun v => v)).2 = 1 ∧
     (modifyScope (FMeta.mk Persisted 0 1 (some 5) (some 0)) (fun v => v)).1.state =
       ((FMeta.mk Persisted 0 1 (some 5) (some 0)).state ||| NeedsSave)) :=
  ⟨rfl, mutator_marks_dirty (FMeta.mk Persisted 0 1 (some 5) (some 0)) (fun v => v) rfl⟩

/-- C7: `purge()` on a dirty object fails with `invalidAccess`; on a
non-dirty object it discards the payload (leaving the state alone), and on a
persisted object the next read access re-triggers a load. -/
theorem purge_spec (m : FMeta) (row : Nat) :
    (m.state &&& NeedsSave ≠ 0 → purge m = Except.error DboError.invalidAccess) ∧
    (m.state &&& NeedsSave = 0 →
      purge m = Except.ok { m with payload := none } ∧
      (m.state &&& (Persisted ||| SavedInTransaction) ≠ 0 →
        objAccess { m with payload := none } (some row) =
          Except.ok ({ m with payload := some row }, row, true))) := by
  constructor
  · intro hd
    unfold purge
    rw [if_pos hd]
  · intro hc
    refine ⟨?_, ?_⟩
    · unfold purge
      rw [if_neg (fun hk => hk hc)]
    · intro hp
      simp only [objAccess]
      rw [if_pos hp]

/-- Witness for C7: a dirty object (`Persisted ||| NeedsSave`) rejects purge;
a clean persisted object purges and then reloads on read. -/
theorem purge_spec_witness :
    ((FMeta.mk 0x021 0 1 (some 5) (some 0)).state &&& NeedsSave ≠ 0 ∧
     purge (FMeta.mk 0x021 0 1 (some 5) (some 0)) = Except.error DboError.invalidAccess) ∧
    ((FMeta.mk 0x001 0 1 (some 5) (some 0)).state &&& NeedsSave = 0 ∧
     (purge (FMeta.mk 0x001 0 1 (some 5) (some 0)) =
        Except.ok { FMeta.mk 0x001 0 1 (some 5) (some 0) with payload := none } ∧
      ((FMeta.mk 0x001 0 1 (some 5) (some 0)).state &&& (Persisted ||| SavedInTransaction) ≠ 0 →
        objAccess { FMeta.mk 0x001 0 1 (some 5) (some 0) with payload := none } (some 9) =
          Except.ok ({ FMeta.mk 0x001 0 1 (some 5) (some 0) with payload := some 9 }, 9, true)))) :=
  ⟨⟨by decide, (purge_spec (FMeta.mk 0x021 0 1 (some 5) (some 0)) 9).1 (by decide)⟩,
   ⟨by decide, (purge_spec (FMeta.mk 0x001 0 1 (some 5) (some 0)) 9).2 (by decide)⟩⟩

/-- C9: for a null handle the delegating accessors return defined neutral
values instead of failing: `id()` is `dbo_traits<C>::invalidId()` (which
defaults to -1), `version()` is -1, `isDirty()` is false, `session()` is
null; and `flush`, `remove`, `reread`, `purge` on a null handle are
no-ops. -/
theorem null_handle_neutral (storedVersion newId : Int) (activeTx : Bool) :
    ptrId (Ptr.mk none) = invalidId ∧ invalidId = -1 ∧
    ptrVersion (Ptr.mk none) = -1 ∧
    ptrIsDirty (Ptr.mk none) = false ∧
    ptrSession (Ptr.mk none) = none ∧
    ptrFlush (Ptr.mk none) storedVersion newId = Ptr.mk none ∧
    ptrRemove (Ptr.mk none) activeTx = Ptr.mk none ∧
    ptrReread (Ptr.mk none) = Ptr.mk none ∧
    ptrPurge (Ptr.mk none) = Ptr.mk none :=
  ⟨rfl, rfl, rfl, rfl, rfl, rfl, rfl, rfl, rfl⟩

/-- C4: `flush()` is a no-op whenever `Saving` is set; otherwise, when the
object has a pending delete or is dirty (a pending insert when not yet
persisted, an update when persisted), a successful flush performs exactly one
write operation and clears `NeedsSave`; and on an optimistic-concurrency
version mismatch it fails with `staleObject`, issuing no write and leaving
the metadata unchanged. -/
theorem flush_spec (m : FMeta) (sv ni : Int) (hv : ValidState m.state) :
    (m.state &&& Saving ≠ 0 → flush m sv ni = ⟨m, [], none⟩) ∧
    (m.state &&& Saving = 0 →
      (m.state &&& NeedsDelete ≠ 0 ∨ m.state &&& NeedsSave ≠ 0) →
      (flush m sv ni).err = none →
      (flush m sv ni).writes.length = 1 ∧
      (flush m sv ni).meta.state &&& NeedsSave = 0) ∧
    ((flush m sv ni).err = some DboError.staleObject →
      (flush m sv ni).meta = m ∧ (flush m sv ni).writes = []) ∧
    (m.state &&& Saving = 0 → m.state &&& NeedsDelete ≠ 0 → m.version ≠ sv →
      (flush m sv ni).err = some DboError.staleObject) ∧
    (m.state &&& Saving = 0 → m.state &&& NeedsDelete = 0 →
      m.state &&& NeedsSave ≠ 0 → m.state &&& (Persisted ||| SavedInTransaction) ≠ 0 →
      m.version ≠ sv →
      (flush m sv ni).err = some DboError.staleObject) := by
  have hlt : m.state < 1024 := valid_lt _ hv
  have Hsav : ∀ b : Bool, ∀ s : Nat, s < 1024 → s &&& Saving ≠ 0 →
      flushCore s b = ⟨s, [], none, false⟩ := by decide
  have Hone : ∀ b : Bool, ∀ s : Nat, s < 1024 → ValidState s → s &&& Saving = 0 →
      (s &&& NeedsDelete ≠ 0 ∨ s &&& NeedsSave ≠ 0) →
      (flushCore s b).err = none →
      (flushCore s b).writes.length = 1 ∧ (flushCore s b).st &&& NeedsSave = 0 := by
    decide
  have Hstale : ∀ b : Bool, ∀ s : Nat, s < 1024 →
      (flushCore s b).err = some DboError.staleObject →
      flushCore s b = ⟨s, [], some DboError.staleObject, false⟩ := by decide
  have Hdel : ∀ s : Nat, s < 1024 → s &&& Saving = 0 → s &&& NeedsDelete ≠ 0 →
      (flushCore s false).err = some DboError.staleObject := by decide
  have Hupd : ∀ s : Nat, s < 1024 → s &&& Saving = 0 → s &&& NeedsDelete = 0 →
      s &&& NeedsSave ≠ 0 → s &&& (Persisted ||| SavedInTransaction) ≠ 0 →
      (flushCore s false).err = some DboError.staleObject := by decide
  simp only [flush]
  refine ⟨?_, ?_, ?_, ?_, ?_⟩
  · intro hsv
    rw [Hsav (m.version == sv) m.state hlt hsv]
    rfl
  · intro h0 h1 h2
    cases hbb : (m.version == sv) with
    | false =>
      rw [hbb] at h2
      exact Hone false m.state hlt hv h0 h1 h2
    | true =>
      rw [hbb] at h2
      exact Hone true m.state hlt hv h0 h1 h2
  · intro hstale
    rw [Hstale (m.version == sv) m.state hlt hstale]
    exact ⟨rfl, rfl⟩
  · intro h0 h1 hne
    have hb : (m.version == sv) = false := by
      rw [beq_eq_false_iff_ne]
      exact hne
    rw [hb]
    exact Hdel m.state hlt h0 h1
  · intro h0 h1 h2 h3 hne
    have hb : (m.version == sv) = false := by
      rw [beq_eq_false_iff_ne]
      exact hne
    rw [hb]
    exact Hupd m.state hlt h0 h1 h2 h3

/-- Witness for C4: a persisted dirty object (`Persisted ||| NeedsSave`) with
matching stored version 0, generated id 7. -/
theorem flush_spec_witness :
    ValidState (FMeta.mk 0x021 0 1 (some 5) (some 0)).state ∧
    (((FMeta.mk 0x021 0 1 (some 5) (some 0)).state &&& Saving ≠ 0 →
        flush (FMeta.mk 0x021 0 1 (some 5) (some 0)) 0 7 =
          ⟨FMeta.mk 0x021 0 1 (some 5) (some 0), [], none⟩) ∧
     ((FMeta.mk 0x021 0 1 (some 5) (some 0)).state &&& Saving = 0 →
        ((FMeta.mk 0x021 0 1 (some 5) (some 0)).state &&& NeedsDelete ≠ 0 ∨
         (FMeta.mk 0x021 0 1 (some 5) (some 0)).state &&& NeedsSave ≠ 0) →
        (flush (FMeta.mk 0x021 0 1 (some 5) (some 0)) 0 7).err = none →
        (flush (FMeta.mk 0x021 0 1 (some 5) (some 0)) 0 7).writes.length = 1 ∧
        (flush (FMeta.mk 0x021 0 1 (some 5) (some 0)) 0 7).meta.state &&& NeedsSave = 0) ∧
     ((flush (FMeta.mk 0x021 0 1 (some 5) (some 0)) 0 7).err = some DboError.staleObject →
        (flush (FMeta.mk 0x021 0 1 (some 5) (some 0)) 0 7).meta =
          FMeta.mk 0x021 0 1 (some 5) (some 0) ∧
        (flush (FMeta.mk 0x021 0 1 (some 5) (some 0)) 0 7).writes = []) ∧
     ((FMeta.mk 0x021 0 1 (some 5) (some 0)).state &&& Saving = 0 →
        (FMeta.mk 0x021 0 1 (some 5) (some 0)).state &&& NeedsDelete ≠ 0 →
        (FMeta.mk 0x021 0 1 (some 5) (some 0)).version ≠ 0 →
        (flush (FMeta.mk 0x021 0 1 (some 5) (some 0)) 0 7).err = some DboError.staleObject) ∧
     ((FMeta.mk 0x021 0 1 (some 5) (some 0)).state &&& Saving = 0 →
        (FMeta.mk 0x021 0 1 (some 5) (some 0)).state &&& NeedsDelete = 0 →
        (FMeta.mk 0x021 0 1 (some 5) (some 0)).state &&& NeedsSave ≠ 0 →
        (FMeta.mk 0x021 0 1 (some 5) (some 0)).state &&& (Persisted ||| SavedInTransaction) ≠ 0 →
        (FMeta.mk 0x021 0 1 (some 5) (some 0)).version ≠ 0 →
        (flush (FMeta.mk 0x021 0 1 (some 5) (some 0)) 0 7).err = some DboError.staleObject)) :=
  ⟨by decide, flush_spec (FMeta.mk 0x021 0 1 (some 5) (some 0)) 0 7 (by decide)⟩

/-- C6: `transactionDone(true)` promotes the transaction-scope bits
(`DeletedInTransaction` finalizes into the orphaned deleted state,
`SavedInTransaction` becomes `Persisted`); `transactionDone(false)` discards
the transaction-scope bits and reverts the speculative change, so that after
a rollback following an in-transaction save (third conjunct: any
pre-transaction state with no pending delete) or in-transaction delete
(fourth conjunct: any pre-transaction state with no pending save) the state
equals the state before the transaction began. -/
theorem transactionDone_spec (m : FMeta) (sv ni : Int) (hv : ValidState m.state) :
    (m.state &&& DeletedInTransaction ≠ 0 →
      (doTransactionDone m true).state = Orphaned) ∧
    (m.state &&& DeletedInTransaction = 0 → m.state &&& SavedInTransaction ≠ 0 →
      (doTransactionDone m true).state = Persisted) ∧
    (m.state &&& (Saving ||| NeedsDelete ||| TransactionState) = 0 →
      (doTransactionDone (flush m sv ni).meta false).state = m.state) ∧
    (m.state &&& (Saving ||| NeedsSave ||| TransactionState) = 0 →
      (doTransactionDone (flush m sv ni).meta false).state = m.state) := by
  have hlt : m.state < 1024 := valid_lt _ hv
  have H1 : ∀ s : Nat, s < 1024 → s &&& DeletedInTransaction ≠ 0 →
      txDoneCore s true = Orphaned := by decide
  have H2 : ∀ s : Nat, s < 1024 → s &&& DeletedInTransaction = 0 →
      s &&& SavedInTransaction ≠ 0 → txDoneCore s true = Persisted := by decide
  have H3 : ∀ b : Bool, ∀ s : Nat, s < 1024 → ValidState s →
      s &&& (Saving ||| NeedsDelete ||| TransactionState) = 0 →
      txDoneCore (flushCore s b).st false = s := by decide
  have H4 : ∀ b : Bool, ∀ s : Nat, s < 1024 → ValidState s →
      s &&& (Saving ||| NeedsSave ||| TransactionState) = 0 →
      txDoneCore (flushCore s b).st false = s := by decide
  simp only [doTransactionDone, flush]
  refine ⟨?_, ?_, ?_, ?_⟩
  · intro h
    exact H1 m.state hlt h
  · intro h0 h1
    exact H2 m.state hlt h0 h1
  · intro h
    cases hbb : (m.version == sv) with
    | false => exact H3 false m.state hlt hv h
    | true => exact H3 true m.state hlt hv h
  · intro h
    cases hbb : (m.version == sv) with
    | false => exact H4 false m.state hlt hv h
    | true => exact H4 true m.state hlt hv h

/-- Witness for C6: a persisted dirty object (`Persisted ||| NeedsSave`),
stored version 0, generated id 7: the in-transaction save followed by a
rollback restores the pre-transaction state. -/
theorem transactionDone_spec_witness :
    ValidState (FMeta.mk 0x021 0 1 (some 5) (some 0)).state ∧
    (((FMeta.mk 0x021 0 1 (some 5) (some 0)).state &&& DeletedInTransaction ≠ 0 →
        (doTransactionDone (FMeta.mk 0x021 0 1 (some 5) (some 0)) true).state = Orphaned) ∧
     ((FMeta.mk 0x021 0 1 (some 5) (some 0)).state &&& DeletedInTransaction = 0 →
        (FMeta.mk 0x021 0 1 (some 5) (some 0)).state &&& SavedInTransaction ≠ 0 →
        (doTransactionDone (FMeta.mk 0x021 0 1 (some 5) (some 0)) true).state = Persisted) ∧
     ((FMeta.mk 0x021 0 1 (some 5) (some 0)).state &&&
          (Saving ||| NeedsDelete ||| TransactionState) = 0 →
        (doTransactionDone (flush (FMeta.mk 0x021 0 1 (some 5) (some 0)) 0 7).meta false).state =
          (FMeta.mk 0x021 0 1 (some 5) (some 0)).state) ∧
     ((FMeta.mk 0x021 0 1 (some 5) (some 0)).state &&&
          (Saving ||| NeedsSave ||| TransactionState) = 0 →
        (doTransactionDone (flush (FMeta.mk 0x021 0 1 (some 5) (some 0)) 0 7).meta false).state =
          (FMeta.mk 0x021 0 1 (some 5) (some 0)).state)) :=
  ⟨by decide, transactionDone_spec (FMeta.mk 0x021 0 1 (some 5) (some 0)) 0 7 (by decide)⟩

/-- C8: `remove()` on a transient (never persisted) object destroys the
identity association immediately as a pure in-memory discard (invalid id, no
session, state `New`, payload untouched); `remove()` on a persisted object
sets `NeedsDelete` (or `DeletedInTransaction` when inside an active
transaction) and does not discard the payload. -/
theorem remove_spec (m : FMeta) (activeTx : Bool) (hv : ValidState m.state) :
    (isPersisted m.state = false →
      (remove m activeTx).id = invalidId ∧
      (remove m activeTx).session = none ∧
      (remove m activeTx).state = New ∧
      (remove m activeTx).payload = m.payload) ∧
    (isPersisted m.state = true →
      (remove m activeTx).payload = m.payload ∧
      (remove m activeTx).id = m.id ∧
      (remove m activeTx).session = m.session ∧
      (activeTx = true → deletedInTransaction (remove m activeTx).state = true) ∧
      (activeTx = false → (remove m activeTx).state &&& NeedsDelete ≠ 0)) := by
  have hlt : m.state < 1024 := valid_lt _ hv
  have hbit : isPersisted m.state = false ↔
      m.state &&& (Persisted ||| SavedInTransaction) = 0 := by
    simp [isPersisted]
  by_cases hp : m.state &&& (Persisted ||| SavedInTransaction) = 0
  · constructor
    · intro _
      unfold remove
      rw [if_pos hp]
      exact ⟨rfl, rfl, rfl, rfl⟩
    · intro habs
      rw [hbit.mpr hp] at habs
      exact absurd habs (by decide)
  · constructor
    · intro habs
      exact absurd (hbit.mp habs) hp
    · intro _
      unfold remove
      rw [if_neg hp]
      refine ⟨rfl, rfl, rfl, ?_, ?_⟩
      · intro htx
        rw [htx]
        show deletedInTransaction (m.state ||| DeletedInTransaction) = true
        have H : ∀ s : Nat, s < 1024 →
            deletedInTransaction (s ||| DeletedInTransaction) = true := by decide
        exact H m.state hlt
      · intro htx
        rw [htx]
        show (m.state ||| NeedsDelete) &&& NeedsDelete ≠ 0
        have H : ∀ s : Nat, s < 1024 → (s ||| NeedsDelete) &&& NeedsDelete ≠ 0 := by
          decide
        exact H m.state hlt

/-- Witness for C8: a clean persisted object removed outside a transaction. -/
theorem remove_spec_witness :
    ValidState (FMeta.mk 0x001 0 1 (some 5) (some 0)).state ∧
    ((isPersisted (FMeta.mk 0x001 0 1 (some 5) (some 0)).state = false →
        (remove (FMeta.mk 0x001 0 1 (some 5) (some 0)) false).id = invalidId ∧
        (remove (FMeta.mk 0x001 0 1 (some 5) (some 0)) false).session = none ∧
        (remove (FMeta.mk 0x001 0 1 (some 5) (some 0)) false).state = New ∧
        (remove (FMeta.mk 0x001 0 1 (some 5) (some 0)) false).payload =
          (FMeta.mk 0x001 0 1 (some 5) (some 0)).payload) ∧
     (isPersisted (FMeta.mk 0x001 0 1 (some 5) (some 0)).state = true →
        (remove (FMeta.mk 0x001 0 1 (some 5) (some 0)) false).payload =
          (FMeta.mk 0x001 0 1 (some 5) (some 0)).payload ∧
        (remove (FMeta.mk 0x001 0 1 (some 5) (some 0)) false).id =
          (FMeta.mk 0x001 0 1 (some 5) (some 0)).id ∧
        (remove (FMeta.mk 0x001 0 1 (some 5) (some 0)) false).session =
          (FMeta.mk 0x001 0 1 (some 5) (some 0)).session ∧
        (false = true →
          deletedInTransaction (remove (FMeta.mk 0x001 0 1 (some 5) (some 0)) false).state = true) ∧
        (false = false →
          (remove (FMeta.mk 0x001 0 1 (some 5) (some 0)) false).state &&& NeedsDelete ≠ 0))) :=
  ⟨by decide, remove_spec (FMeta.mk 0x001 0 1 (some 5) (some 0)) false (by decide)⟩

end WtDbo
